import Mathlib

/-!
Verification development for the searxng core: a shallow embedding of
`searx/network/client.py` and `searx/search/__init__.py`, with theorems
checking the natural-language specification against the code.

Exception classes are modelled as an inductive enumeration together with
Boolean predicates that reproduce the isinstance checks performed by the
except-clauses, using the class hierarchy of httpcore 0.12 / python_socks 1.x:
  ConnectError, ReadError, WriteError, CloseError  <  NetworkError
  LocalProtocolError, RemoteProtocolError          <  ProtocolError
  httpcore.ProxyError, UnsupportedProtocol, TimeoutException : siblings
  python_socks.ProxyConnectionError                <  OSError
An async `arequest` call is modelled as a function from the attempt index to
that attempt's outcome (a response or a raised exception); the retry loop
becomes structural recursion on the remaining `retry` budget.
-/

/-- Exception classes that can cross the transport layer. -/
inductive PyExc
  | proxyConnectionError   -- python_socks.ProxyConnectionError (subclass of OSError)
  | proxyTimeoutError      -- python_socks.ProxyTimeoutError
  | psProxyError           -- python_socks.ProxyError
  | osError                -- OSError, e.g. socket.gaierror on DNS failure
  | connectError           -- httpcore.ConnectError   < NetworkError
  | readError              -- httpcore.ReadError      < NetworkError
  | writeError             -- httpcore.WriteError     < NetworkError
  | closeError             -- httpcore.CloseError     < NetworkError
  | networkError           -- httpcore.NetworkError
  | localProtocolError     -- httpcore.LocalProtocolError  < ProtocolError
  | remoteProtocolError    -- httpcore.RemoteProtocolError < ProtocolError
  | protocolError          -- httpcore.ProtocolError
  | hcProxyError           -- httpcore.ProxyError
  | unsupportedProtocol    -- httpcore.UnsupportedProtocol
  | timeoutException       -- httpcore.TimeoutException family
deriving DecidableEq, Repr

/-- isinstance check of the clause
`except (ProxyConnectionError, ProxyTimeoutError, ProxyError)` (python_socks). -/
def isPythonSocksProxyExc : PyExc → Bool
  | .proxyConnectionError => true
  | .proxyTimeoutError => true
  | .psProxyError => true
  | _ => false

/-- isinstance check of `except OSError`.  `python_socks.ProxyConnectionError`
subclasses OSError, so it is included (in the source it is always caught by the
proxy clause first, which precedes this one). -/
def isOSError : PyExc → Bool
  | .osError => true
  | .proxyConnectionError => true
  | _ => false

/-- isinstance check of `except httpcore.CloseError`. -/
def isCloseError : PyExc → Bool
  | .closeError => true
  | _ => false

/-- isinstance check of `except httpcore.RemoteProtocolError`. -/
def isRemoteProtocolError : PyExc → Bool
  | .remoteProtocolError => true
  | _ => false

/-- isinstance check of `except httpcore.NetworkError`. -/
def isNetworkError : PyExc → Bool
  | .connectError => true
  | .readError => true
  | .writeError => true
  | .closeError => true
  | .networkError => true
  | _ => false

/-- isinstance check of `except httpcore.ProtocolError`. -/
def isProtocolError : PyExc → Bool
  | .localProtocolError => true
  | .remoteProtocolError => true
  | .protocolError => true
  | _ => false

/-- Outcome of one underlying `super().arequest(...)` attempt: a response
(abstracted to a numeric identity) or a raised exception. -/
inductive Attempt
  | ok (r : Nat)
  | exn (e : PyExc)
deriving DecidableEq, Repr

/-- What the caller of the fixed transports' `arequest` sees raised. -/
inductive Raised
  | hcProxyErrorWrap (e : PyExc)    -- raise httpcore.ProxyError(e)
  | hcNetworkErrorWrap (e : PyExc)  -- raise httpcore.NetworkError(e)
  | hcConnectErrorWrap (e : PyExc)  -- raise httpcore.ConnectError(e)
  | orig (e : PyExc)                -- raise e / uncaught propagation
deriving DecidableEq, Repr

/-- Result of a whole `arequest` call: a returned response, a raised
exception, or Python's implicit `return None` when the while-loop exits
without returning or raising. -/
inductive SendResult
  | response (r : Nat)
  | raised (x : Raised)
  | pyNone
deriving DecidableEq, Repr

/-- `arequest` outcome together with observable side effects: how many times
`close_connections_for_url` ran and how many underlying attempts were made. -/
structure ArequestResult where
  result : SendResult
  evictions : Nat
  attemptsMade : Nat
deriving DecidableEq, Repr

/-- Loop body of `AsyncHTTPTransportFixed.arequest` (client.py lines 113-136):
`retry = 2; while retry > 0: retry -= 1; try: return await super().arequest(...)`
with except clauses, in source order: OSError (raise httpcore.ConnectError(e)),
CloseError (evict, retry), RemoteProtocolError (evict, retry),
(ProtocolError, NetworkError) (evict, raise e).  Any exception matching no
clause propagates.  Fuel is the `retry` counter; `i` the attempt index;
`ev` the evictions so far. -/
def directGo (att : Nat → Attempt) : Nat → Nat → Nat → ArequestResult
  | 0, i, ev => ⟨.pyNone, ev, i⟩
  | retry + 1, i, ev =>
    match att i with
    | .ok r => ⟨.response r, ev, i + 1⟩
    | .exn e =>
      if isOSError e then ⟨.raised (.hcConnectErrorWrap e), ev, i + 1⟩
      else if isCloseError e then directGo att retry (i + 1) (ev + 1)
      else if isRemoteProtocolError e then directGo att retry (i + 1) (ev + 1)
      else if isProtocolError e || isNetworkError e then ⟨.raised (.orig e), ev + 1, i + 1⟩
      else ⟨.raised (.orig e), ev, i + 1⟩

/-- `AsyncHTTPTransportFixed.arequest`: the loop entered with `retry = 2`. -/
def AsyncHTTPTransportFixed_arequest (att : Nat → Attempt) : ArequestResult :=
  directGo att 2 0 0

/-- Loop body of `AsyncProxyTransportFixed.arequest` (client.py lines 87-107),
except clauses in source order: (ProxyConnectionError, ProxyTimeoutError,
ProxyError) (raise httpcore.ProxyError(e)), OSError (raise
httpcore.NetworkError(e)), RemoteProtocolError (evict, retry),
(NetworkError, ProtocolError) (evict, raise e). -/
def socksGo (att : Nat → Attempt) : Nat → Nat → Nat → ArequestResult
  | 0, i, ev => ⟨.pyNone, ev, i⟩
  | retry + 1, i, ev =>
    match att i with
    | .ok r => ⟨.response r, ev, i + 1⟩
    | .exn e =>
      if isPythonSocksProxyExc e then ⟨.raised (.hcProxyErrorWrap e), ev, i + 1⟩
      else if isOSError e then ⟨.raised (.hcNetworkErrorWrap e), ev, i + 1⟩
      else if isRemoteProtocolError e then socksGo att retry (i + 1) (ev + 1)
      else if isNetworkError e || isProtocolError e then ⟨.raised (.orig e), ev + 1, i + 1⟩
      else ⟨.raised (.orig e), ev, i + 1⟩

/-- `AsyncProxyTransportFixed.arequest`: the loop entered with `retry = 2`. -/
def AsyncProxyTransportFixed_arequest (att : Nat → Attempt) : ArequestResult :=
  socksGo att 2 0 0

/-- `AsyncHTTPTransportNoHttp.arequest` (client.py lines 63-67): raises
`httpcore.UnsupportedProtocol` unconditionally, never attempting a send. -/
def AsyncHTTPTransportNoHttp_arequest (_method _url : String) : ArequestResult :=
  ⟨.raised (.orig .unsupportedProtocol), 0, 0⟩

/-!  Connection pool eviction: `close_connections_for_url` (client.py 39-52).  -/

/-- An httpcore URL 4-tuple (scheme, host, explicit port, path). -/
structure HcURL where
  scheme : String
  host : String
  explicitPort : Option Nat
  path : String
deriving DecidableEq, Repr

/-- An origin (scheme, host, port). -/
structure Origin where
  scheme : String
  host : String
  port : Nat
deriving DecidableEq, Repr

/-- `httpcore._utils.url_to_origin`: missing explicit port falls back to the
scheme's default port (http 80, https 443). -/
def url_to_origin (url : HcURL) : Origin :=
  let defaultPort := if url.scheme = "https" then 443 else 80
  ⟨url.scheme, url.host, url.explicitPort.getD defaultPort⟩

/-- One pooled connection: an identity, its origin, and what its `aclose()`
would raise (`none` = closes cleanly).  `aclose` is third-party httpcore code,
so the exception class it may raise is left unconstrained. -/
structure PoolConn where
  connId : Nat
  origin : Origin
  closeExc : Option PyExc
deriving DecidableEq, Repr

/-- `AsyncConnectionPool._remove_from_pool(connection)`: the pool drops that
connection object (identified here by `connId`). -/
def remove_from_pool (pool : List PoolConn) (c : PoolConn) : List PoolConn :=
  pool.filter (fun x => decide (x.connId ≠ c.connId))

/-- Result of an eviction pass: the remaining pool, the number of
close-failure warnings logged, and the exception propagated to the caller
(if any). -/
structure EvictOutcome where
  pool : List PoolConn
  warnings : Nat
  raised : Option PyExc
deriving DecidableEq, Repr

/-- The `for connection in connections_to_close` loop: remove the connection
from the pool, then `await connection.aclose()` guarded only by
`except httpcore.NetworkError` (logged as a warning); any other exception
class aborts the loop and propagates. -/
def closeLoop : List PoolConn → List PoolConn → Nat → EvictOutcome
  | [], pool, w => ⟨pool, w, none⟩
  | c :: rest, pool, w =>
    let pool1 := remove_from_pool pool c
    match c.closeExc with
    | none => closeLoop rest pool1 w
    | some e =>
      if isNetworkError e then closeLoop rest pool1 (w + 1)
      else ⟨pool1, w, some e⟩

/-- `close_connections_for_url(connection_pool, url)` (client.py 39-52):
snapshot the connections for the URL's origin, then remove-and-close each. -/
def close_connections_for_url (pool : List PoolConn) (url : HcURL) : EvictOutcome :=
  let origin := url_to_origin url
  let connections_to_close := pool.filter (fun c => decide (c.origin = origin))
  closeLoop connections_to_close pool 0

/-!  SSL context cache: `get_sslcontexts` (client.py 55-60).  -/

/-- A `verify` argument: a Boolean or a CA-bundle path. -/
inductive VerifyOpt
  | flag (b : Bool)
  | caPath (s : String)
deriving DecidableEq, Repr

/-- The 5-tuple cache key `(proxy_url, cert, verify, trust_env, http2)`. -/
structure SSLKey where
  proxy_url : Option String
  cert : Option String
  verify : VerifyOpt
  trust_env : Bool
  http2 : Bool
deriving DecidableEq, Repr

/-- The module-level `SSLCONTEXTS` dict.  A context object is represented by
the (unique) value of the construction counter at its creation, so two
contexts are identity-equal iff their numbers agree; `built` counts the calls
to `httpx.create_ssl_context`. -/
structure SSLContexts where
  entries : List (SSLKey × Nat)
  built : Nat
deriving DecidableEq, Repr

/-- `get_sslcontexts(proxy_url, cert, verify, trust_env, http2)`:
`if key not in SSLCONTEXTS: SSLCONTEXTS[key] = create_ssl_context(...)`;
`return SSLCONTEXTS[key]`.  Explicit state passing replaces the global. -/
def get_sslcontexts (key : SSLKey) (s : SSLContexts) : Nat × SSLContexts :=
  match s.entries.find? (fun kv => decide (kv.1 = key)) with
  | some kv => (kv.2, s)
  | none => (s.built, ⟨s.entries ++ [(key, s.built)], s.built + 1⟩)

/-!  Client factory: `iter_proxies` / `new_client` (client.py 184-224).  -/

/-- A transport instance as built by the factory.  `socksProxy` records the
(possibly socks5h-rewritten) proxy URL and the rdns flag; `direct` records
the optional proxy URL handed to `httpx._config.Proxy`. -/
inductive TransportM
  | noHttp
  | socksProxy (proxy_url : String) (rdns : Bool)
  | direct (proxy_url : Option String)
deriving DecidableEq, Repr

/-- `get_transport_for_socks_proxy` (client.py 139-166), restricted to the
mount-relevant data: socks5h:// URLs are rewritten to socks5:// with
remote DNS resolution enabled. -/
def get_transport_for_socks_proxy (proxy_url : String) : TransportM :=
  let socks5h := "socks5h://"
  if proxy_url.startsWith socks5h then
    .socksProxy ("socks5://" ++ proxy_url.drop socks5h.length) true
  else
    .socksProxy proxy_url false

/-- `get_transport` (client.py 169-181), restricted to the mount-relevant
data. -/
def get_transport (proxy_url : Option String) : TransportM :=
  .direct proxy_url

/-- The `proxies` argument: a single URL string, a pattern-to-URL mapping, or
anything else (e.g. None). -/
inductive ProxiesCfg
  | str (s : String)
  | dict (items : List (String × String))
  | pyNone
deriving DecidableEq, Repr

/-- `iter_proxies(proxies)` (client.py 184-190): a string is the `all://`
pattern; a dict is iterated item by item; anything else yields nothing. -/
def iter_proxies : ProxiesCfg → List (String × String)
  | .str s => [("all://", s)]
  | .dict items => items
  | .pyNone => []

/-- Python dict assignment `mounts[pattern] = transport`: replace the value
if the key is present, else append the pair. -/
def mountsInsert (m : List (String × TransportM)) (k : String) (v : TransportM) :
    List (String × TransportM) :=
  if m.any (fun kv => decide (kv.1 = k)) then
    m.map (fun kv => if kv.1 = k then (k, v) else kv)
  else
    m ++ [(k, v)]

/-- Python dict lookup `mounts.get(pattern)`. -/
def mountsLookup (m : List (String × TransportM)) (k : String) : Option TransportM :=
  (m.find? (fun kv => decide (kv.1 = k))).map (fun kv => kv.2)

/-- The body of the `for pattern, proxy_url in iter_proxies(proxies)` loop in
`new_client` (client.py 205-218): skip http patterns when plaintext HTTP is
disabled, else mount a SOCKS or a direct transport under the pattern. -/
def newClientLoopStep (enable_http : Bool) (m : List (String × TransportM))
    (pu : String × String) : List (String × TransportM) :=
  let pattern := pu.1
  let proxy_url := pu.2
  if ¬enable_http ∧ (pattern = "http" ∨ pattern.startsWith "http://") then m
  else if proxy_url.startsWith "socks4://" ∨ proxy_url.startsWith "socks5://"
      ∨ proxy_url.startsWith "socks5h://" then
    mountsInsert m pattern (get_transport_for_socks_proxy proxy_url)
  else
    mountsInsert m pattern (get_transport (some proxy_url))

/-- The proxy-mount loop of `new_client`, folded over `iter_proxies`. -/
def loopMounts (enable_http : Bool) (proxies : ProxiesCfg) : List (String × TransportM) :=
  (iter_proxies proxies).foldl (newClientLoopStep enable_http) []

/-- The full `mounts` dict built by `new_client` (client.py 204-221): the
proxy loop, then `mounts['http://'] = AsyncHTTPTransportNoHttp()` when
plaintext HTTP is disabled. -/
def new_client_mounts (enable_http : Bool) (proxies : ProxiesCfg) :
    List (String × TransportM) :=
  let m := loopMounts enable_http proxies
  if ¬enable_http then mountsInsert m "http://" .noHttp else m

/-!  Search orchestrator: `Search` (search/__init__.py 37-171).
Timeouts (Python floats compared only with `min`/`max`) are modelled as
rationals. -/

/-- The data the orchestrator reads from one selected engine's processor:
`extend_container_if_suspended`, `get_params` (None means skip, the params
themselves are opaque), and `engine.timeout`. -/
structure EngineEntry where
  name : String
  suspended : Bool
  getParamsResult : Option Unit
  timeout : Rat
deriving DecidableEq, Repr

/-- A `SearchQuery`, with `external_bang` as the truthiness of the parsed
bang and `bang_url` the result of the (spec-modelled) bang registry lookup. -/
structure SearchQueryM where
  query : String
  external_bang : Bool
  bang_url : Option String
  timeout_limit : Option Rat
  engineref_list : List EngineEntry
deriving DecidableEq, Repr

/-- What `get_bang_url` may hand back: a URL string or Python None. -/
inductive BangResult
  | url (s : String)
  | pyNone
deriving DecidableEq, Repr

/-- Modelled from the spec: `searx.external_bang.get_bang_url` is not under
`src/` (only its caller is).  Per spec section 4.6 and the glossary, a bang
shortcut that matches a registered shortcut redirects to an external URL, so
the lookup returns the registered redirect URL on a match and None otherwise;
`bang_url` carries the registry's answer for this query. -/
def get_bang_url (sq : SearchQueryM) : BangResult :=
  match sq.bang_url with
  | some u => .url u
  | none => .pyNone

/-- Modelled from the spec: per sections 4.6 and 8 a matched shortcut's
redirect URL is a non-empty string, so any URL the bang registry can return
is non-empty. -/
def SpecBangRegistry (sq : SearchQueryM) : Prop :=
  ∀ u : String, sq.bang_url = some u → u ≠ ""

instance (sq : SearchQueryM) : Decidable (SpecBangRegistry sq) := by
  unfold SpecBangRegistry
  cases sq.bang_url with
  | none => exact isTrue (by simp)
  | some u =>
    by_cases h : u = ""
    · exact isFalse (by simp [h])
    · exact isTrue (by simpa using h)

/-- `Search.search_external_bang` (search/__init__.py 50-62): when
`external_bang` is truthy, assign `get_bang_url(...)` to
`result_container.redirect_url`; return True iff that value is a `str`.
The second component is the written value (`none` = never assigned, the
container keeps its initial `redirect_url = None`). -/
def search_external_bang (sq : SearchQueryM) : Bool × Option BangResult :=
  if sq.external_bang then
    let ru := get_bang_url sq
    (match ru with
     | .url _ => true
     | .pyNone => false, some ru)
  else
    (false, none)

/-- The engine loop of `Search._get_requests` (search/__init__.py 86-104):
skip suspended engines and engines whose `get_params` returns None; append a
`(engine_name, query, request_params)` triple for each accepted engine and
fold `default_timeout = max(default_timeout, processor.engine.timeout)`. -/
def requestsLoop (q : String) :
    List EngineEntry → List (String × String × Unit) → Rat →
    List (String × String × Unit) × Rat
  | [], acc, d => (acc, d)
  | e :: rest, acc, d =>
    if e.suspended then requestsLoop q rest acc d
    else
      match e.getParamsResult with
      | none => requestsLoop q rest acc d
      | some p => requestsLoop q rest (acc ++ [(e.name, q, p)]) (max d e.timeout)

/-- The timeout adjustment of `Search._get_requests`
(search/__init__.py 107-122): the four-branch if/elif chain over
`max_request_timeout` and `query_timeout`. -/
def adjustTimeout (default_timeout : Rat)
    (max_request_timeout query_timeout : Option Rat) : Rat :=
  match max_request_timeout, query_timeout with
  | none, none => default_timeout
  | none, some q => min default_timeout q
  | some m, none => min default_timeout m
  | some m, some q => min q m

/-- `Search._get_requests` (search/__init__.py 78-127): the engine loop with
`default_timeout` starting at 0, then the timeout adjustment against
`settings['outgoing']['max_request_timeout']` and
`search_query.timeout_limit`. -/
def get_requests (sq : SearchQueryM) (max_request_timeout : Option Rat) :
    List (String × String × Unit) × Rat :=
  let rd := requestsLoop sq.query sq.engineref_list [] 0
  (rd.1, adjustTimeout rd.2 max_request_timeout sq.timeout_limit)

/-- Observable outcome of `Search.search()`: the final
`result_container.redirect_url`, whether `search_answerers` /
`search_standard` ran, the answer result groups extended into the container,
the number of engine worker threads spawned, and the computed
`actual_timeout` (None = never assigned). -/
structure SearchOutcome where
  redirect_url : Option BangResult
  answerersInvoked : Bool
  answersExtended : List (List Nat)
  standardInvoked : Bool
  workersSpawned : Nat
  actual_timeout : Option Rat
deriving DecidableEq, Repr

/-- `Search.search` (search/__init__.py 166-171) together with
`search_answerers` (64-75), `search_standard` (152-163) and
`search_multiple_requests` (129-150, one worker thread per request).
`ask_results` is the value of `ask(self.search_query)` (the answerers are an
external collaborator), `max_request_timeout` the process-wide ceiling. -/
def Search_search (sq : SearchQueryM) (ask_results : List (List Nat))
    (max_request_timeout : Option Rat) : SearchOutcome :=
  let bang := search_external_bang sq
  if bang.1 then
    ⟨bang.2, false, [], false, 0, none⟩
  else if ask_results ≠ [] then
    ⟨bang.2, true, ask_results, false, 0, none⟩
  else
    let rt := get_requests sq max_request_timeout
    ⟨bang.2, true, [], true, rt.1.length, some rt.2⟩

/-!  Concrete fixtures used by witness theorems.  -/

/-- A query with two accepted engines (default_timeout 10), timeout_limit 5. -/
def sqC1 : SearchQueryM :=
  ⟨"time", false, none, some 5,
   [⟨"a", false, some (), 10⟩, ⟨"b", false, some (), 4⟩]⟩

/-- First attempt fails with a stale-connection CloseError, second succeeds. -/
def attStaleThenOk : Nat → Attempt :=
  fun i => if i = 0 then .exn .closeError else .ok 7

/-- Every attempt fails with an HTTP/2 half-open-stream WriteError. -/
def attWrite : Nat → Attempt :=
  fun _ => .exn .writeError

/-- Every attempt fails with a SOCKS negotiation failure. -/
def attPsProxy : Nat → Attempt :=
  fun _ => .exn .psProxyError

/-- Every attempt fails with OSError (DNS resolution failure). -/
def attOs : Nat → Attempt :=
  fun _ => .exn .osError

/-- Every attempt fails with httpcore.ProxyError. -/
def attHcProxy : Nat → Attempt :=
  fun _ => .exn .hcProxyError

/-- A default SSL cache key. -/
def keyC5 : SSLKey := ⟨none, none, .flag true, false, false⟩

/-- A pool with one connection each for two distinct origins. -/
def poolC7 : List PoolConn :=
  [⟨0, ⟨"https", "a.example", 443⟩, none⟩,
   ⟨1, ⟨"https", "b.example", 443⟩, none⟩]

/-- A URL of the first origin of `poolC7`. -/
def urlC7 : HcURL := ⟨"https", "a.example", some 443, "/"⟩

/-- A pool whose single origin-A connection fails to close with a
NetworkError-class error. -/
def poolC8 : List PoolConn :=
  [⟨0, ⟨"https", "a.example", 443⟩, some .closeError⟩,
   ⟨1, ⟨"https", "b.example", 443⟩, none⟩]

/-- A proxies dict with one plain-http pattern and one other pattern. -/
def proxiesC9 : ProxiesCfg :=
  .dict [("http", "http://proxy.example:3128"),
         ("all://", "socks5://proxy.example:1080")]

/-- A query with a matching external bang. -/
def sqC6 : SearchQueryM :=
  ⟨"!w cats", true, some "https://en.wikipedia.org/wiki/cats", none, []⟩

/-- A query with a truthy external bang that is not registered:
`get_bang_url` returns None. -/
def sqC10 : SearchQueryM :=
  ⟨"!nosuch cats", true, none, none,
   [⟨"a", false, some (), 3⟩]⟩

/-!  Shared helper lemmas.  -/

/-- find? distributes over append when the first part has no hit. -/
theorem find?_append_of_none {α : Type} (p : α → Bool) (l1 l2 : List α)
    (h : l1.find? p = none) : (l1 ++ l2).find? p = l2.find? p := by
  induction l1 with
  | nil => simp
  | cons a t ih =>
    cases hp : p a with
    | true => simp [List.find?_cons, hp] at h
    | false =>
      rw [List.find?_cons, hp] at h
      rw [List.cons_append, List.find?_cons, hp]
      exact ih h

/-!  Claim theorems.  -/

/-- Claim C1: for every search, with D the default_timeout computed over the
accepted engines, `_get_requests` computes actual_timeout by the four-case
precedence: no query limit Q and no ceiling M gives D; only M gives
min(D, M); only Q gives min(D, Q); both give min(Q, M). -/
theorem claim_C1_timeout_precedence (sq : SearchQueryM) (M : Option Rat) (q m : Rat) :
    (sq.timeout_limit = none → M = none →
      (get_requests sq M).2 = (requestsLoop sq.query sq.engineref_list [] 0).2)
    ∧ (sq.timeout_limit = none → M = some m →
      (get_requests sq M).2 = min (requestsLoop sq.query sq.engineref_list [] 0).2 m)
    ∧ (sq.timeout_limit = some q → M = none →
      (get_requests sq M).2 = min (requestsLoop sq.query sq.engineref_list [] 0).2 q)
    ∧ (sq.timeout_limit = some q → M = some m →
      (get_requests sq M).2 = min q m) := by
  refine ⟨?_, ?_, ?_, ?_⟩ <;> intro h1 h2 <;> simp [get_requests, adjustTimeout, h1, h2]

/-- Witness for C1 at the spec's example D=10, Q=5, M=3: actual is min 5 3 = 3. -/
theorem claim_C1_timeout_precedence_witness :
    sqC1.timeout_limit = some 5 ∧ (get_requests sqC1 (some 3)).2 = min 5 3 :=
  ⟨rfl, (claim_C1_timeout_precedence sqC1 (some 3) 5 3).2.2.2 rfl rfl⟩

/-- Claim C2 (code bug): when every attempt fails with the retryable
RemoteProtocolError class, the `while retry > 0` loop of both `arequest`
variants exits without returning or raising, so Python implicitly returns
None — the last error does not propagate. -/
theorem claim_C2_exhausted_retries_return_none :
    AsyncHTTPTransportFixed_arequest (fun _ => .exn .remoteProtocolError)
      = ⟨.pyNone, 2, 2⟩
    ∧ AsyncProxyTransportFixed_arequest (fun _ => .exn .remoteProtocolError)
      = ⟨.pyNone, 2, 2⟩ := by
  exact ⟨rfl, rfl⟩

/-- Stale-connection class in the direct transport: CloseError (keepalive
sweep reset) or RemoteProtocolError (remote disconnect mid-request). -/
def isStaleDirect (e : PyExc) : Bool :=
  isCloseError e || isRemoteProtocolError e

/-- Claim C3: in the direct transport, a stale-connection-class failure
evicts the origin's pooled connections and retries (one of the at-most-2
attempts); a first failure of any other httpcore protocol/network class
evicts and re-raises with no second attempt; fail-once-stale-then-succeed
returns the successful response having evicted exactly once. -/
theorem claim_C3_direct_retry_policy (att : Nat → Attempt) (e : PyExc) (r : Nat) :
    (att 0 = .exn e → isStaleDirect e = true → att 1 = .ok r →
      AsyncHTTPTransportFixed_arequest att = ⟨.response r, 1, 2⟩)
    ∧ (att 0 = .exn e → (isProtocolError e || isNetworkError e) = true →
        isStaleDirect e = false →
      AsyncHTTPTransportFixed_arequest att = ⟨.raised (.orig e), 1, 1⟩) := by
  constructor
  · intro h0 hs h1
    cases e <;>
      simp_all [AsyncHTTPTransportFixed_arequest, directGo, isStaleDirect,
        isOSError, isCloseError, isRemoteProtocolError, isProtocolError, isNetworkError]
  · intro h0 hc hs
    cases e <;>
      simp_all [AsyncHTTPTransportFixed_arequest, directGo, isStaleDirect,
        isOSError, isCloseError, isRemoteProtocolError, isProtocolError, isNetworkError]

/-- Witness for C3: CloseError then success gives the response with one
eviction; WriteError gives evict-and-raise on the first attempt. -/
theorem claim_C3_direct_retry_policy_witness :
    AsyncHTTPTransportFixed_arequest attStaleThenOk = ⟨.response 7, 1, 2⟩
    ∧ AsyncHTTPTransportFixed_arequest attWrite
      = ⟨.raised (.orig .writeError), 1, 1⟩ :=
  ⟨(claim_C3_direct_retry_policy attStaleThenOk .closeError 7).1 rfl rfl rfl,
   (claim_C3_direct_retry_policy attWrite .writeError 0).2 rfl rfl rfl⟩

/-- Claim C4 counterexample: the SOCKS variant re-raises OSError (DNS/socket
failure) as httpcore.NetworkError (client.py line 97), which is not the
connect-error kind the claim requires of both variants. -/
theorem claim_C4_counterexample :
    AsyncProxyTransportFixed_arequest attOs
      = ⟨.raised (.hcNetworkErrorWrap .osError), 0, 1⟩
    ∧ Raised.hcNetworkErrorWrap PyExc.osError ≠ Raised.hcConnectErrorWrap PyExc.osError := by
  exact ⟨rfl, by decide⟩

/-- Claim C4 (amended): proxy-negotiation failures are re-raised as the
standard proxy-error kind without retry (mapped in the SOCKS variant,
propagated unchanged in the direct variant); an OSError address-resolution
failure is re-raised without retry as the standard connect-error kind in the
direct variant but as the general network-error kind in the SOCKS variant. -/
theorem claim_C4_amended (att : Nat → Attempt) (e : PyExc) :
    (att 0 = .exn e → isPythonSocksProxyExc e = true →
      AsyncProxyTransportFixed_arequest att = ⟨.raised (.hcProxyErrorWrap e), 0, 1⟩)
    ∧ (att 0 = .exn e → isOSError e = true → isPythonSocksProxyExc e = false →
      AsyncProxyTransportFixed_arequest att = ⟨.raised (.hcNetworkErrorWrap e), 0, 1⟩)
    ∧ (att 0 = .exn e → isOSError e = true →
      AsyncHTTPTransportFixed_arequest att = ⟨.raised (.hcConnectErrorWrap e), 0, 1⟩)
    ∧ (att 0 = .exn .hcProxyError →
      AsyncHTTPTransportFixed_arequest att = ⟨.raised (.orig .hcProxyError), 0, 1⟩) := by
  refine ⟨?_, ?_, ?_, ?_⟩
  · intro h0 hp
    cases e <;>
      simp_all [AsyncProxyTransportFixed_arequest, socksGo, isPythonSocksProxyExc, isOSError]
  · intro h0 ho hp
    cases e <;>
      simp_all [AsyncProxyTransportFixed_arequest, socksGo, isPythonSocksProxyExc, isOSError]
  · intro h0 ho
    cases e <;>
      simp_all [AsyncHTTPTransportFixed_arequest, directGo, isOSError]
  · intro h0
    simp [AsyncHTTPTransportFixed_arequest, directGo, h0, isOSError, isCloseError,
      isRemoteProtocolError, isProtocolError, isNetworkError]

/-- Witness for the amended C4 at concrete attempt streams. -/
theorem claim_C4_amended_witness :
    AsyncProxyTransportFixed_arequest attPsProxy
      = ⟨.raised (.hcProxyErrorWrap .psProxyError), 0, 1⟩
    ∧ AsyncProxyTransportFixed_arequest attOs
      = ⟨.raised (.hcNetworkErrorWrap .osError), 0, 1⟩
    ∧ AsyncHTTPTransportFixed_arequest attOs
      = ⟨.raised (.hcConnectErrorWrap .osError), 0, 1⟩
    ∧ AsyncHTTPTransportFixed_arequest attHcProxy
      = ⟨.raised (.orig .hcProxyError), 0, 1⟩ :=
  ⟨(claim_C4_amended attPsProxy .psProxyError).1 rfl rfl,
   (claim_C4_amended attOs .osError).2.1 rfl rfl rfl,
   (claim_C4_amended attOs .osError).2.2.1 rfl rfl,
   (claim_C4_amended attHcProxy .hcProxyError).2.2.2 rfl⟩

/-- Claim C5: for every 5-tuple key, a second `get_sslcontexts` call with the
same key returns the identity-equal cached context and leaves the cache
unchanged; construction runs only when the key is absent; a present key
leaves the state untouched; entries are never evicted. -/
theorem claim_C5_sslcache_memoization (k : SSLKey) (s : SSLContexts) :
    get_sslcontexts k (get_sslcontexts k s).2
      = ((get_sslcontexts k s).1, (get_sslcontexts k s).2)
    ∧ (s.entries.find? (fun kv => decide (kv.1 = k)) = none →
        ((get_sslcontexts k s).2).built = s.built + 1)
    ∧ (s.entries.find? (fun kv => decide (kv.1 = k)) ≠ none →
        (get_sslcontexts k s).2 = s)
    ∧ (∀ e ∈ s.entries, e ∈ ((get_sslcontexts k s).2).entries) := by
  cases h : s.entries.find? (fun kv => decide (kv.1 = k)) with
  | some kv =>
    refine ⟨?_, ?_, ?_, ?_⟩
    · simp [get_sslcontexts, h]
    · intro hn; simp [h] at hn
    · intro _; simp [get_sslcontexts, h]
    · intro e he; simp [get_sslcontexts, h]; exact he
  | none =>
    have happ : ((s.entries ++ [(k, s.built)]).find? (fun kv => decide (kv.1 = k)))
        = some (k, s.built) := by
      rw [find?_append_of_none _ _ _ h]
      simp [List.find?]
    refine ⟨?_, ?_, ?_, ?_⟩
    · simp [get_sslcontexts, h, happ]
    · intro _; simp [get_sslcontexts, h]
    · intro hn; simp [h] at hn
    · intro e he; simp [get_sslcontexts, h]; exact Or.inl he

/-- Witness for C5: from the empty cache, the first call for `keyC5` builds
(built becomes 1) and a repeated call is idempotent. -/
theorem claim_C5_sslcache_memoization_witness :
    ((get_sslcontexts keyC5 ⟨[], 0⟩).2).built = 0 + 1
    ∧ get_sslcontexts keyC5 (get_sslcontexts keyC5 ⟨[], 0⟩).2
      = ((get_sslcontexts keyC5 ⟨[], 0⟩).1, (get_sslcontexts keyC5 ⟨[], 0⟩).2) :=
  ⟨(claim_C5_sslcache_memoization keyC5 ⟨[], 0⟩).2.1 rfl,
   (claim_C5_sslcache_memoization keyC5 ⟨[], 0⟩).1⟩

/-- Provided every connection in the worklist closes cleanly or fails with a
NetworkError-class error, the eviction loop removes exactly the worklist's
connections (by identity) from the pool, logs one warning per close failure,
and raises nothing. -/
theorem closeLoop_benign (l : List PoolConn) :
    ∀ (pool : List PoolConn) (w : Nat),
    (∀ c ∈ l, Option.all isNetworkError c.closeExc = true) →
    closeLoop l pool w
      = ⟨pool.filter (fun x => decide (x.connId ∉ l.map PoolConn.connId)),
         w + (l.filter (fun c => c.closeExc.isSome)).length,
         none⟩ := by
  induction l with
  | nil =>
    intro pool w _
    simp [closeLoop]
  | cons c rest ih =>
    intro pool w hb
    have hc := hb c (by simp)
    have hrest : ∀ x ∈ rest, Option.all isNetworkError x.closeExc = true := by
      intro x hx; exact hb x (by simp [hx])
    have hpt : ∀ x : PoolConn,
        (decide (x.connId ∉ List.map PoolConn.connId rest)
          && decide (x.connId ≠ c.connId))
        = decide (x.connId ∉ List.map PoolConn.connId (c :: rest)) := by
      intro x
      by_cases h1 : x.connId = c.connId <;>
        by_cases h2 : x.connId ∈ List.map PoolConn.connId rest <;>
          simp [h1, h2]
    have hfilter :
        (remove_from_pool pool c).filter
            (fun x => decide (x.connId ∉ List.map PoolConn.connId rest))
          = pool.filter (fun x => decide (x.connId ∉ List.map PoolConn.connId (c :: rest))) := by
      unfold remove_from_pool
      rw [List.filter_filter]
      exact List.filter_congr (fun x _ => hpt x)
    cases hce : c.closeExc with
    | none =>
      rw [closeLoop, hce]
      rw [ih (remove_from_pool pool c) w hrest, hfilter]
      simp [hce]
    | some e =>
      have hnet : isNetworkError e = true := by
        rw [hce] at hc; simpa using hc
      rw [closeLoop, hce]
      simp only [hnet, if_pos]
      rw [ih (remove_from_pool pool c) (w + 1) hrest, hfilter]
      simp [hce]
      omega

/-- Claim C7: evicting the connections for a URL's origin removes from the
pool exactly the connections of that origin and leaves every connection of
any other origin in the pool (connection identities are distinct, and the
evicted connections close cleanly or fail with the NetworkError class the
source guards against). -/
theorem claim_C7_eviction_is_origin_exact (pool : List PoolConn) (url : HcURL)
    (hnodup : (pool.map PoolConn.connId).Nodup)
    (hbenign : ∀ c ∈ pool, c.origin = url_to_origin url →
        Option.all isNetworkError c.closeExc = true) :
    (close_connections_for_url pool url).pool
      = pool.filter (fun c => decide (c.origin ≠ url_to_origin url))
    ∧ (∀ c ∈ pool, c.origin ≠ url_to_origin url →
        c ∈ (close_connections_for_url pool url).pool)
    ∧ (∀ c ∈ pool, c.origin = url_to_origin url →
        c ∉ (close_connections_for_url pool url).pool) := by
  have hb2 : ∀ c ∈ pool.filter (fun c => decide (c.origin = url_to_origin url)),
      Option.all isNetworkError c.closeExc = true := by
    intro c hc
    rw [List.mem_filter] at hc
    exact hbenign c hc.1 (by simpa using hc.2)
  have hmain : (close_connections_for_url pool url).pool
      = pool.filter (fun c => decide (c.origin ≠ url_to_origin url)) := by
    unfold close_connections_for_url
    rw [closeLoop_benign _ _ _ hb2]
    apply List.filter_congr
    intro x hx
    simp only [decide_eq_decide]
    constructor
    · intro hni hA
      apply hni
      rw [List.mem_map]
      exact ⟨x, List.mem_filter.mpr ⟨hx, by simpa using hA⟩, rfl⟩
    · intro hA hni
      rw [List.mem_map] at hni
      obtain ⟨y, hy, hyx⟩ := hni
      rw [List.mem_filter] at hy
      have hxy : y = x := List.inj_on_of_nodup_map hnodup hy.1 hx hyx
      apply hA
      rw [← hxy]
      simpa using hy.2
  refine ⟨hmain, ?_, ?_⟩
  · intro c hc hne
    rw [hmain, List.mem_filter]
    exact ⟨hc, by simpa using hne⟩
  · intro c _ hA hmem
    rw [hmain, List.mem_filter] at hmem
    have hne : c.origin ≠ url_to_origin url := by simpa using hmem.2
    exact hne hA

/-- Witness for C7: evicting origin a.example from a two-origin pool leaves
exactly the b.example connection. -/
theorem claim_C7_eviction_is_origin_exact_witness :
    (close_connections_for_url poolC7 urlC7).pool
      = [⟨1, ⟨"https", "b.example", 443⟩, none⟩] := by
  rw [(claim_C7_eviction_is_origin_exact poolC7 urlC7 (by decide) (by decide)).1]
  decide

/-- Claim C8 counterexample: a close failure outside the NetworkError class
(here OSError) escapes `close_connections_for_url` — the except clause at
client.py line 50 guards `httpcore.NetworkError` only, so eviction itself can
raise. -/
theorem claim_C8_counterexample :
    close_connections_for_url
        [⟨0, ⟨"https", "a.example", 443⟩, some PyExc.osError⟩]
        ⟨"https", "a.example", some 443, "/"⟩
      = ⟨[], 0, some PyExc.osError⟩
    ∧ (close_connections_for_url
        [⟨0, ⟨"https", "a.example", 443⟩, some PyExc.osError⟩]
        ⟨"https", "a.example", some 443, "/"⟩).raised ≠ none := by
  exact ⟨by decide, by decide⟩

/-- Claim C8 (amended): a failure of the NetworkError class while closing an
evicted connection is logged as a warning and never propagates — under that
failure class eviction raises nothing and logs one warning per failing
close; close failures of any other class propagate to the caller. -/
theorem claim_C8_amended_best_effort (pool : List PoolConn) (url : HcURL)
    (hbenign : ∀ c ∈ pool, c.origin = url_to_origin url →
        Option.all isNetworkError c.closeExc = true) :
    (close_connections_for_url pool url).raised = none
    ∧ (close_connections_for_url pool url).warnings
      = ((pool.filter (fun c => decide (c.origin = url_to_origin url))).filter
          (fun c => c.closeExc.isSome)).length := by
  have hb2 : ∀ c ∈ pool.filter (fun c => decide (c.origin = url_to_origin url)),
      Option.all isNetworkError c.closeExc = true := by
    intro c hc
    rw [List.mem_filter] at hc
    exact hbenign c hc.1 (by simpa using hc.2)
  unfold close_connections_for_url
  rw [closeLoop_benign _ _ _ hb2]
  exact ⟨rfl, by simp⟩

/-- Witness for the amended C8: a NetworkError-class close failure is logged
(one warning) and nothing is raised. -/
theorem claim_C8_amended_best_effort_witness :
    (close_connections_for_url poolC8 urlC7).raised = none
    ∧ (close_connections_for_url poolC8 urlC7).warnings = 1 := by
  have h := claim_C8_amended_best_effort poolC8 urlC7 (by decide)
  exact ⟨h.1, by rw [h.2]; decide⟩


/-- find? distributes over append when the first part has a hit. -/
theorem find?_append_of_some {α : Type} (p : α → Bool) (l1 l2 : List α) (a : α)
    (h : l1.find? p = some a) : (l1 ++ l2).find? p = some a := by
  induction l1 with
  | nil => simp at h
  | cons x t ih =>
    cases hp : p x with
    | true =>
      rw [List.find?_cons_of_pos t hp] at h
      rw [List.cons_append, List.find?_cons_of_pos _ hp]
      exact h
    | false =>
      have hnp : ¬ (p x = true) := by simp [hp]
      rw [List.find?_cons_of_neg t hnp] at h
      rw [List.cons_append, List.find?_cons_of_neg _ hnp]
      exact ih h

/-- Replacing the value at key `k` in a dict that holds `k` makes the lookup
of `k` find the new value. -/
theorem find?_map_replace (m : List (String × TransportM)) (k : String) (v : TransportM)
    (h : m.any (fun kv => decide (kv.1 = k)) = true) :
    (m.map (fun kv => if kv.1 = k then (k, v) else kv)).find?
        (fun kv => decide (kv.1 = k)) = some (k, v) := by
  induction m with
  | nil => simp at h
  | cons a t ih =>
    by_cases ha : a.1 = k
    · rw [List.map_cons, if_pos ha, List.find?_cons_of_pos _ (by simp)]
    · have h2 : t.any (fun kv => decide (kv.1 = k)) = true := by
        rw [List.any_cons] at h
        simpa [ha] using h
      rw [List.map_cons, if_neg ha, List.find?_cons_of_neg _ (by simp [ha])]
      exact ih h2

/-- Replacing the value at key `k` does not change the lookup of a key
`p ≠ k`. -/
theorem find?_map_replace_other (m : List (String × TransportM)) (k p : String)
    (v : TransportM) (hpk : p ≠ k) :
    (m.map (fun kv => if kv.1 = k then (k, v) else kv)).find?
        (fun kv => decide (kv.1 = p))
      = m.find? (fun kv => decide (kv.1 = p)) := by
  induction m with
  | nil => rfl
  | cons a t ih =>
    by_cases ha : a.1 = k
    · have h2 : ¬ (a.1 = p) := by rw [ha]; exact fun hh => hpk hh.symm
      rw [List.map_cons, if_pos ha,
        List.find?_cons_of_neg _ (by simp; exact fun hh => hpk hh.symm),
        List.find?_cons_of_neg _ (by simpa using h2)]
      exact ih
    · by_cases hp : a.1 = p
      · rw [List.map_cons, if_neg ha, List.find?_cons_of_pos _ (by simpa using hp),
          List.find?_cons_of_pos _ (by simpa using hp)]
      · rw [List.map_cons, if_neg ha, List.find?_cons_of_neg _ (by simpa using hp),
          List.find?_cons_of_neg _ (by simpa using hp)]
        exact ih

/-- Dict assignment then lookup of the same key yields the assigned value. -/
theorem mountsLookup_insert_self (m : List (String × TransportM)) (k : String)
    (v : TransportM) : mountsLookup (mountsInsert m k v) k = some v := by
  unfold mountsInsert mountsLookup
  by_cases h : m.any (fun kv => decide (kv.1 = k)) = true
  · rw [if_pos h, find?_map_replace m k v h]
    rfl
  · have hb : m.any (fun kv => decide (kv.1 = k)) = false :=
      Bool.eq_false_iff.mpr h
    have hn : m.find? (fun kv => decide (kv.1 = k)) = none := by
      rw [List.find?_eq_none]
      exact List.any_eq_false.mp hb
    rw [if_neg h, find?_append_of_none _ _ _ hn,
      List.find?_cons_of_pos _ (by simp)]
    rfl

/-- Dict assignment at key `k` does not change the lookup of a key `p ≠ k`. -/
theorem mountsLookup_insert_other (m : List (String × TransportM)) (k p : String)
    (v : TransportM) (hpk : p ≠ k) :
    mountsLookup (mountsInsert m k v) p = mountsLookup m p := by
  unfold mountsInsert mountsLookup
  by_cases h : m.any (fun kv => decide (kv.1 = k)) = true
  · rw [if_pos h, find?_map_replace_other m k p v hpk]
  · rw [if_neg h]
    cases hf : m.find? (fun kv => decide (kv.1 = p)) with
    | some a => rw [find?_append_of_some _ _ _ _ hf]
    | none =>
      rw [find?_append_of_none _ _ _ hf,
        List.find?_cons_of_neg _ (by simp; exact fun hh => hpk hh.symm)]
      rfl

/-- With plaintext HTTP disabled, the proxy-mount loop never binds a pattern
that is `http` or starts with `http://`: folding the loop leaves the lookup
of such a pattern unchanged. -/
theorem loopMounts_skipped_pattern (items : List (String × String)) :
    ∀ (m0 : List (String × TransportM)) (p : String),
    (p = "http" ∨ p.startsWith "http://" = true) →
    mountsLookup (items.foldl (newClientLoopStep false) m0) p = mountsLookup m0 p := by
  induction items with
  | nil => intro m0 p _; rfl
  | cons a t ih =>
    intro m0 p hp
    rw [List.foldl_cons, ih _ p hp]
    unfold newClientLoopStep
    by_cases hc : a.1 = "http" ∨ a.1.startsWith "http://" = true
    · rw [if_pos ⟨by simp, by simpa using hc⟩]
    · have hne : p ≠ a.1 := by
        rintro rfl
        exact hc hp
      rw [if_neg (fun hh => hc (by simpa using hh.2))]
      by_cases hs : a.2.startsWith "socks4://" ∨ a.2.startsWith "socks5://"
          ∨ a.2.startsWith "socks5h://"
      · rw [if_pos hs, mountsLookup_insert_other _ _ _ _ hne]
      · rw [if_neg hs, mountsLookup_insert_other _ _ _ _ hne]

/-- Claim C9: with plaintext HTTP disabled, `new_client` mounts the
`http://` pattern to the transport whose every request unconditionally fails
with UnsupportedProtocol, and the proxy-mount loop skips every pattern equal
to `http` or starting with `http://`. -/
theorem claim_C9_http_disabled (proxies : ProxiesCfg) (p method url : String)
    (hp : p = "http" ∨ p.startsWith "http://" = true) :
    mountsLookup (new_client_mounts false proxies) "http://" = some TransportM.noHttp
    ∧ AsyncHTTPTransportNoHttp_arequest method url
      = ⟨SendResult.raised (Raised.orig PyExc.unsupportedProtocol), 0, 0⟩
    ∧ mountsLookup (loopMounts false proxies) p = none := by
  refine ⟨?_, rfl, ?_⟩
  · unfold new_client_mounts
    rw [if_pos (by simp)]
    exact mountsLookup_insert_self _ _ _
  · unfold loopMounts
    rw [loopMounts_skipped_pattern (iter_proxies proxies) [] p hp]
    rfl

/-- Witness for C9 on a dict holding one plain-http pattern and one other
pattern. -/
theorem claim_C9_http_disabled_witness :
    mountsLookup (new_client_mounts false proxiesC9) "http://" = some TransportM.noHttp
    ∧ mountsLookup (loopMounts false proxiesC9) "http" = none := by
  have h := claim_C9_http_disabled proxiesC9 "http" "GET" "http://x.example/"
    (Or.inl rfl)
  exact ⟨h.1, h.2.2⟩

/-- Claim C6: for every search whose external bang matches
(`search_external_bang` returns True), `search_answerers` and
`search_standard` are not invoked, no engine worker is spawned, and
`result_container.redirect_url` holds a non-empty string when `search()`
returns (`get_bang_url` modelled from the spec, registered URLs being
non-empty). -/
theorem claim_C6_bang_short_circuit (sq : SearchQueryM)
    (ask_results : List (List Nat)) (M : Option Rat)
    (hb : (search_external_bang sq).1 = true) (hreg : SpecBangRegistry sq) :
    (Search_search sq ask_results M).answerersInvoked = false
    ∧ (Search_search sq ask_results M).standardInvoked = false
    ∧ (Search_search sq ask_results M).workersSpawned = 0
    ∧ ∃ u : String, (Search_search sq ask_results M).redirect_url
        = some (BangResult.url u) ∧ u ≠ "" := by
  cases hx : sq.external_bang with
  | false => rw [search_external_bang, if_neg (by simp [hx])] at hb; simp at hb
  | true =>
    cases hu : sq.bang_url with
    | none => simp [search_external_bang, get_bang_url, hx, hu] at hb
    | some u =>
      have hne : u ≠ "" := hreg u hu
      refine ⟨?_, ?_, ?_, ⟨u, ?_, hne⟩⟩ <;>
        simp [Search_search, search_external_bang, get_bang_url, hx, hu]

/-- Witness for C6 on a query whose bang matches a registered shortcut. -/
theorem claim_C6_bang_short_circuit_witness :
    (Search_search sqC6 [[1]] (some 3)).standardInvoked = false
    ∧ (Search_search sqC6 [[1]] (some 3)).workersSpawned = 0
    ∧ ∃ u : String, (Search_search sqC6 [[1]] (some 3)).redirect_url
        = some (BangResult.url u) ∧ u ≠ "" := by
  have h := claim_C6_bang_short_circuit sqC6 [[1]] (some 3) rfl
    (by intro u hu; cases hu; decide)
  exact ⟨h.2.1, h.2.2.1, h.2.2.2⟩

/-- Claim C10: when `external_bang` is truthy but `get_bang_url` returns the
non-string None, `search_external_bang` still assigns that value to
`result_container.redirect_url` yet returns False, so `search()` proceeds to
the answerer check and, when no answerer fires, to the standard engine
fan-out, despite `redirect_url` having been assigned. -/
theorem claim_C10_nonstring_bang_proceeds (sq : SearchQueryM)
    (ask_results : List (List Nat)) (M : Option Rat)
    (hb : sq.external_bang = true) (hn : sq.bang_url = none) :
    search_external_bang sq = (false, some BangResult.pyNone)
    ∧ (Search_search sq ask_results M).redirect_url = some BangResult.pyNone
    ∧ (Search_search sq ask_results M).answerersInvoked = true
    ∧ (ask_results = [] →
        (Search_search sq ask_results M).standardInvoked = true
        ∧ (Search_search sq ask_results M).workersSpawned
          = (get_requests sq M).1.length) := by
  have h1 : search_external_bang sq = (false, some BangResult.pyNone) := by
    simp [search_external_bang, get_bang_url, hb, hn]
  refine ⟨h1, ?_, ?_, ?_⟩
  · by_cases ha : ask_results = [] <;> simp [Search_search, h1, ha]
  · by_cases ha : ask_results = [] <;> simp [Search_search, h1, ha]
  · intro ha; constructor <;> simp [Search_search, h1, ha]

/-- Witness for C10 on a truthy but unregistered bang with no answerer
results: the engine fan-out still happens (one worker for the one accepted
engine). -/
theorem claim_C10_nonstring_bang_proceeds_witness :
    (Search_search sqC10 [] none).redirect_url = some BangResult.pyNone
    ∧ (Search_search sqC10 [] none).answerersInvoked = true
    ∧ (Search_search sqC10 [] none).standardInvoked = true := by
  have h := claim_C10_nonstring_bang_proceeds sqC10 [] none rfl rfl
  exact ⟨h.2.1, h.2.2.1, (h.2.2.2 rfl).1⟩
